import Mathlib

/-!
Verification of the persona affect engine: a shallow embedding of
`src/persona/hormone_adjuster.py` and `src/persona/mood_tracker.py`.

Modelling conventions:
- Python floats are modelled as exact rationals (`ℚ`); every numeric literal of
  the source is transcribed as the corresponding fraction (0.15 ↦ 15/100, ...).
- Python dicts are modelled as ordered association lists (CPython dicts preserve
  insertion order, which the source relies on for its pattern cascade).
- Functions that can raise (`KeyError` on a direct index, `IndexError` on an
  empty list) return `Option`, with `none` for the raising path.
- The `random` calls of `generate_emergent_mood_variations` are modelled by
  explicit parameters (`coin` for `random.random() > 0.5`, `pick` for
  `random.choice`).
- File I/O is modelled by explicit state passing; a failing write of the mood
  snapshot is modelled by the `writeOk` flag of `update_mood`.
-/

namespace Persona

/-- Python prefix test: does the first character list start the second? -/
def startsWith : List Char → List Char → Bool
  | [], _ => true
  | _ :: _, [] => false
  | p :: ps, c :: cs => p == c && startsWith ps cs

/-- Python substring test `p in t` on exploded strings (empty `p` always matches). -/
def containsSub : List Char → List Char → Bool
  | [], p => p.isEmpty
  | c :: rest, p => startsWith p (c :: rest) || containsSub rest p

/-- Python `pattern in text` on strings. -/
def strContains (t p : String) : Bool := containsSub t.toList p.toList

/-- Python `str.lower` (adequate for the ASCII pattern tables of the source). -/
def pyLower (s : String) : String := String.mk (s.toList.map Char.toLower)

/-- Python `str.strip()`: drop leading and trailing whitespace. -/
def pyStrip (s : String) : String :=
  String.mk (((s.toList.dropWhile Char.isWhitespace).reverse.dropWhile
    Char.isWhitespace).reverse)

/-- Helper for `pySplit`: accumulate the current word (reversed) while scanning. -/
def splitWsAux : List Char → List Char → List String
  | [], acc => if acc.isEmpty then [] else [String.mk acc.reverse]
  | c :: cs, acc =>
    if c.isWhitespace then
      if acc.isEmpty then splitWsAux cs [] else String.mk acc.reverse :: splitWsAux cs []
    else splitWsAux cs (c :: acc)

/-- Python `str.split()` with no separator: split on whitespace runs, dropping empties. -/
def pySplit (s : String) : List String := splitWsAux s.toList []

/-- Python `str.isupper` (ASCII): at least one cased character and no lowercase one. -/
def pyIsUpper (s : String) : Bool :=
  s.toList.any (fun c => c.isLower || c.isUpper) && s.toList.all (fun c => !c.isLower)

/-- A hormone record: ordered mapping hormone name → level (`persona/hormones.json`). -/
abbrev HormoneRecord := List (String × ℚ)

/-- Python `record[h]` as a total lookup returning `Option` (`none` = `KeyError`). -/
def lookupH (r : HormoneRecord) (h : String) : Option ℚ :=
  (r.find? (fun p => p.1 = h)).map (fun p => p.2)

/-- Python `record.get(h, 0.5)`. -/
def getH (r : HormoneRecord) (h : String) : ℚ := (lookupH r h).getD (1/2)

/-- Python `record[h] = v` on an existing key (position and key set preserved). -/
def setH (r : HormoneRecord) (h : String) (v : ℚ) : HormoneRecord :=
  r.map (fun p => if p.1 = h then (p.1, v) else p)

/-- `_DEFAULT_HORMONES` of the source. -/
def DEFAULT_HORMONES : HormoneRecord :=
  [("dopamine", 1/2), ("serotonin", 1/2), ("cortisol", 1/2), ("oxytocin", 1/2)]

/-- One category of `_EMOTION_PATTERNS`. -/
structure EmotionConfig where
  patterns : List String
  hormones : List (String × ℚ)
  base_intensity : ℚ
deriving DecidableEq

/-- `_EMOTION_PATTERNS` of the source, in its (significant) insertion order. -/
def EMOTION_PATTERNS : List (String × EmotionConfig) :=
  [ ("strong_negative",
     { patterns := [" you", "you suck", "terrible", "awful", "worst",
                    "you\x27re terrible", "you\x27re awful"]
       hormones := [("cortisol", 15/100), ("serotonin", -(10/100)), ("dopamine", -(5/100))]
       base_intensity := 8/10 }),
    ("strong_positive",
     { patterns := ["love you", "i love you", "amazing", "wonderful", "fantastic",
                    "best ever", "you\x27re amazing", "you\x27re wonderful"]
       hormones := [("dopamine", 15/100), ("serotonin", 10/100), ("oxytocin", 10/100)]
       base_intensity := 8/10 }),
    ("moderate_negative",
     { patterns := ["you are bad", "bad", "not good", "disappointed", "annoyed",
                    "stupid", "foolish"]
       hormones := [("cortisol", 8/100), ("serotonin", -(5/100))]
       base_intensity := 6/10 }),
    ("moderate_positive",
     { patterns := ["good", "nice", "like it", "thanks", "great", "thank you"]
       hormones := [("dopamine", 8/100), ("serotonin", 5/100)]
       base_intensity := 6/10 }),
    ("affectionate",
     { patterns := ["kiss", "i kiss you", "hug", "cuddle", "hold you", "miss you",
                    "kiss you"]
       hormones := [("oxytocin", 12/100), ("dopamine", 6/100)]
       base_intensity := 7/10 }),
    ("playful",
     { patterns := ["lets go", "let\x27s go", "ride", "play", "fun", "adventure",
                    "explore", "lets go for a ride"]
       hormones := [("dopamine", 10/100), ("oxytocin", 5/100)]
       base_intensity := 6/10 }),
    ("offensive",
     { patterns := ["dirty", "nasty", "disgusting", "gross"]
       hormones := [("cortisol", 10/100), ("serotonin", -(8/100))]
       base_intensity := 7/10 }) ]

/-- Count of exclamation marks in the raw text. -/
def exclCount (text : String) : ℕ := text.toList.count '!'

/-- First step of `calculate_contextual_intensity`: exclamation-mark boost. -/
def intensity_after_exclamation (text : String) (i : ℚ) : ℚ :=
  if 0 < exclCount text then i * (1 + (1/10) * ((min (exclCount text) 3 : ℕ) : ℚ)) else i

/-- Second step: all-caps boost for texts longer than 3 characters. -/
def intensity_after_upper (text : String) (i : ℚ) : ℚ :=
  if pyIsUpper text = true ∧ 3 < text.toList.length then i * (12/10) else i

/-- The source's profanity list. -/
def profanity_words : List String := ["fuck", "shit", "damn", "hell"]

/-- Third step: profanity boost. -/
def intensity_after_profanity (text : String) (i : ℚ) : ℚ :=
  if (profanity_words.any (fun w => strContains (pyLower text) w)) = true
  then i * (13/10) else i

/-- Fourth step: word-repetition boost (`len(set(words)) < len(words) * 0.7`). -/
def intensity_after_repetition (text : String) (i : ℚ) : ℚ :=
  if 1 < (pySplit (pyLower text)).length ∧
      ((pySplit (pyLower text)).dedup.length : ℚ) < ((pySplit (pyLower text)).length : ℚ) * (7/10)
  then i * (115/100) else i

/-- `calculate_contextual_intensity` of the source: the four boosts in order,
then a final clamp to 1.0. -/
def calculate_contextual_intensity (text : String) (base_intensity : ℚ) : ℚ :=
  min 1 (intensity_after_repetition text (intensity_after_profanity text
    (intensity_after_upper text (intensity_after_exclamation text base_intensity))))

/-- Multiplicative factor contributed by exclamation marks (for the composition
statement of the spec). -/
def exclamationFactor (text : String) : ℚ :=
  if 0 < exclCount text then 1 + (1/10) * ((min (exclCount text) 3 : ℕ) : ℚ) else 1

/-- Multiplicative factor contributed by the all-caps rule. -/
def upperFactor (text : String) : ℚ :=
  if pyIsUpper text = true ∧ 3 < text.toList.length then 12/10 else 1

/-- Multiplicative factor contributed by the profanity rule. -/
def profanityFactor (text : String) : ℚ :=
  if (profanity_words.any (fun w => strContains (pyLower text) w)) = true
  then 13/10 else 1

/-- Multiplicative factor contributed by the repetition rule. -/
def repetitionFactor (text : String) : ℚ :=
  if 1 < (pySplit (pyLower text)).length ∧
      ((pySplit (pyLower text)).dedup.length : ℚ) < ((pySplit (pyLower text)).length : ℚ) * (7/10)
  then 115/100 else 1

/-- The record returned by the sentiment analyser. -/
structure SentimentResult where
  emotion_type : String
  intensity : ℚ
  hormone_adjustments : List (String × ℚ)
  confidence : ℚ
  triggered_by : String
  method : String
deriving DecidableEq

/-- The positive lexicon of `_word_level_sentiment_analysis`. -/
def positive_words : List String :=
  ["good", "great", "awesome", "happy", "love", "excellent", "wonderful",
   "amazing", "fantastic", "brilliant", "perfect", "beautiful", "nice",
   "enjoy", "like", "fun", "exciting", "yes", "thank", "thanks", "sweet",
   "cool", "best", "super", "fine"]

/-- The negative lexicon of `_word_level_sentiment_analysis`. -/
def negative_words : List String :=
  ["bad", "terrible", "sad", "hate", "awful", "horrible", "disappointed",
   "frustrated", "angry", "upset", "annoyed", "stressed", "fuck", "shit",
   "damn", "stupid", "foolish", "no", "don\x27t", "stop", "worst", "suck",
   "nasty", "gross", "disgusting", "dirty"]

/-- `_word_level_sentiment_analysis` of the source (fallback path). -/
def word_level_sentiment_analysis (text : String) : SentimentResult :=
  let words := pySplit text
  let positive_count := words.countP (fun w => positive_words.contains w)
  let negative_count := words.countP (fun w => negative_words.contains w)
  if 0 < positive_count ∧ negative_count ≤ positive_count then
    { emotion_type := "moderate_positive"
      intensity := min (7/10) (4/10 + (positive_count : ℚ) * (1/10))
      hormone_adjustments := [("dopamine", 8/100), ("serotonin", 5/100)]
      confidence := 6/10
      triggered_by := toString positive_count ++ " positive words"
      method := "word_analysis" }
  else if 0 < negative_count ∧ positive_count < negative_count then
    { emotion_type := "moderate_negative"
      intensity := min (7/10) (4/10 + (negative_count : ℚ) * (1/10))
      hormone_adjustments := [("cortisol", 8/100), ("serotonin", -(5/100))]
      confidence := 6/10
      triggered_by := toString negative_count ++ " negative words"
      method := "word_analysis" }
  else
    { emotion_type := "neutral"
      intensity := 3/10
      hormone_adjustments := []
      confidence := 4/10
      triggered_by := "no clear sentiment"
      method := "neutral_fallback" }

/-- The pattern scan of `analyze_contextual_sentiment`: first matching phrase of
the first matching category, scanning `_EMOTION_PATTERNS` in insertion order. -/
def find_pattern_hit (text_lower : String) : Option (String × EmotionConfig × String) :=
  EMOTION_PATTERNS.findSome? (fun ec =>
    (ec.2.patterns.find? (fun p => strContains text_lower p)).map
      (fun p => (ec.1, ec.2, p)))

/-- `analyze_contextual_sentiment` of the source: scan the ordered category table,
first matching phrase of the first matching category wins; otherwise fall back to
word-level analysis. -/
def analyze_contextual_sentiment (text : String) : SentimentResult :=
  let text_lower := pyStrip (pyLower text)
  match find_pattern_hit text_lower with
  | some hit =>
      { emotion_type := hit.1
        intensity := calculate_contextual_intensity text hit.2.1.base_intensity
        hormone_adjustments := hit.2.1.hormones
        confidence := 9/10
        triggered_by := hit.2.2
        method := "pattern_match" }
  | none => word_level_sentiment_analysis text_lower

/-- One homeostatic decay step on a single level: pull 0.01 toward the 0.5
baseline, never crossing it. -/
def decayVal (v : ℚ) : ℚ :=
  if 1/2 < v then max (1/2) (v - 1/100)
  else if v < 1/2 then min (1/2) (v + 1/100)
  else v

/-- The decay loop of the source: every hormone of the record decays. -/
def applyDecay (r : HormoneRecord) : HormoneRecord :=
  r.map (fun p => (p.1, decayVal p.2))

/-- One contextual adjustment: `hormones[h] = max(0.0, min(1.0, hormones[h] + d))`;
`none` models the `KeyError` when `h` is missing from the record. -/
def applyDelta (r : HormoneRecord) (h : String) (d : ℚ) : Option HormoneRecord :=
  match lookupH r h with
  | none => none
  | some v => some (setH r h (max 0 (min 1 (v + d))))

/-- The adjustment loop of `apply_contextual_hormone_adjustments`: each delta is
scaled by the intensity multiplier and applied in order. -/
def apply_deltas (deltas : List (String × ℚ)) (intensity : ℚ) (r : HormoneRecord) :
    Option HormoneRecord :=
  deltas.foldlM (fun acc hd => applyDelta acc hd.1 (hd.2 * intensity)) r

/-- `apply_contextual_hormone_adjustments` of the source with the loaded hormone
record passed explicitly (the function loads it, mutates it and saves it). With
empty adjustments the record is returned unchanged and no decay fires. -/
def apply_contextual_hormone_adjustments (text : String) (hormones : HormoneRecord) :
    Option HormoneRecord :=
  let analysis := analyze_contextual_sentiment text
  if analysis.hormone_adjustments.isEmpty then some hormones
  else (apply_deltas analysis.hormone_adjustments analysis.intensity hormones).map applyDecay

/-- One legacy-event hormone write `hormones[h] = g(hormones[h])`; `none` models
the `KeyError` when `h` is missing. -/
def bumpWith (g : ℚ → ℚ) (r : HormoneRecord) (h : String) : Option HormoneRecord :=
  (lookupH r h).map (fun v => setH r h (g v))

/-- The closed legacy event vocabulary of `adjust_hormones`. -/
def legacy_events : List String :=
  ["positive_feedback", "stress", "social_connection", "isolation",
   "achievement", "disappointment"]

/-- The hormones each known legacy event reads and writes, in program order. -/
def event_hormones : String → List String
  | "positive_feedback" => ["dopamine", "serotonin"]
  | "stress" => ["cortisol", "serotonin"]
  | "social_connection" => ["oxytocin", "dopamine"]
  | "isolation" => ["oxytocin", "cortisol"]
  | "achievement" => ["dopamine", "serotonin"]
  | "disappointment" => ["dopamine", "serotonin"]
  | _ => []

/-- The event branch of `adjust_hormones` (before decay): the six known events
apply their fixed deltas, an unknown event is a no-op. -/
def adjust_event (event : Option String) (r : HormoneRecord) : Option HormoneRecord :=
  if event = some "positive_feedback" then
    (bumpWith (fun v => min 1 (v + 10/100)) r "dopamine").bind
      (fun r1 => bumpWith (fun v => min 1 (v + 5/100)) r1 "serotonin")
  else if event = some "stress" then
    (bumpWith (fun v => min 1 (v + 10/100)) r "cortisol").bind
      (fun r1 => bumpWith (fun v => max 0 (v - 5/100)) r1 "serotonin")
  else if event = some "social_connection" then
    (bumpWith (fun v => min 1 (v + 10/100)) r "oxytocin").bind
      (fun r1 => bumpWith (fun v => min 1 (v + 5/100)) r1 "dopamine")
  else if event = some "isolation" then
    (bumpWith (fun v => max 0 (v - 10/100)) r "oxytocin").bind
      (fun r1 => bumpWith (fun v => min 1 (v + 5/100)) r1 "cortisol")
  else if event = some "achievement" then
    (bumpWith (fun v => min 1 (v + 15/100)) r "dopamine").bind
      (fun r1 => bumpWith (fun v => min 1 (v + 10/100)) r1 "serotonin")
  else if event = some "disappointment" then
    (bumpWith (fun v => max 0 (v - 10/100)) r "dopamine").bind
      (fun r1 => bumpWith (fun v => max 0 (v - 8/100)) r1 "serotonin")
  else some r

/-- `adjust_hormones` of the source with the loaded record passed explicitly:
event deltas, then homeostatic decay on every hormone, then save. -/
def adjust_hormones (event : Option String) (r : HormoneRecord) : Option HormoneRecord :=
  (adjust_event event r).map applyDecay

/-- An ordered mood-weight table (`persona/mood_weights.json`). -/
abbrev MoodWeights := List (String × List (String × ℚ))

/-- `calculate_mood_scores` of the source: weighted sum over each mood's weight
entries, defaulting a missing hormone to 0.5. -/
def calculate_mood_scores (hormone_levels : HormoneRecord) (mood_weights : MoodWeights) :
    List (String × ℚ) :=
  mood_weights.map (fun mw =>
    (mw.1, mw.2.foldl (fun score hw => score + getH hormone_levels hw.1 * hw.2) 0))

/-- The comparator of `sorted(mood_scores.items(), key=lambda x: abs(x[1]),
reverse=True)`: descending by absolute score, stable. -/
def byAbsDesc (a b : String × ℚ) : Bool := decide (|b.2| ≤ |a.2|)

/-- `detect_undefined_mood_state` of the source. `none` models the `IndexError`
raised on an empty score table; otherwise `some (is_undefined, name, intensity)`. -/
def detect_undefined_mood_state (mood_scores : List (String × ℚ))
    (hormone_levels : HormoneRecord) (threshold : ℚ) : Option (Bool × String × ℚ) :=
  match mood_scores.mergeSort byAbsDesc with
  | [] => none
  | [single] => some (false, single.1, |single.2|)
  | top :: second :: _ =>
    if |(|top.2| - |second.2|)| < threshold then
      let hybrid_name :=
        if 0 < top.2 ∧ 0 < second.2 then second.1 ++ "-" ++ top.1
        else if top.2 < 0 ∧ second.2 < 0 then "conflicted-" ++ top.1
        else "bittersweet-" ++ (if 0 < top.2 then top.1 else second.1)
      some (true, hybrid_name, min 1 ((|top.2| + |second.2|) / 2))
    else
      let max_abs := (mood_scores.map (fun p => |p.2|)).foldl max 0
      if max_abs < 2/10 then some (true, "undefined-neutral", max_abs)
      else
        let dopamine := getH hormone_levels "dopamine"
        let cortisol := getH hormone_levels "cortisol"
        let serotonin := getH hormone_levels "serotonin"
        let oxytocin := getH hormone_levels "oxytocin"
        if 7/10 < dopamine ∧ 7/10 < cortisol then
          some (true, "manic-energy", (dopamine + cortisol) / 2)
        else if serotonin < 3/10 ∧ 7/10 < oxytocin then
          some (true, "melancholic-affection", (oxytocin + (1 - serotonin)) / 2)
        else if [dopamine, cortisol, serotonin, oxytocin].all (fun l => decide (8/10 < l)) then
          some (true, "overwhelmed", 9/10)
        else if [dopamine, cortisol, serotonin, oxytocin].all (fun l => decide (l < 2/10)) then
          some (true, "numb", 8/10)
        else some (false, top.1, |top.2|)

/-- `generate_emergent_mood_variations` of the source, with the random draw made
explicit: `coin` is `random.random() > 0.5`, `pick` selects the prefix. -/
def generate_emergent_mood_variations (base_mood : String) (hormone_levels : HormoneRecord)
    (coin : Bool) (pick : ℕ) : String :=
  let dopamine := getH hormone_levels "dopamine"
  let cortisol := getH hormone_levels "cortisol"
  let serotonin := getH hormone_levels "serotonin"
  let oxytocin := getH hormone_levels "oxytocin"
  let prefixes : List String :=
    (if 6/10 < cortisol then ["tense"] else if cortisol < 3/10 then ["relaxed"] else []) ++
    (if 7/10 < dopamine then ["energetic"] else if dopamine < 3/10 then ["lethargic"] else []) ++
    (if 7/10 < oxytocin then ["warm"] else if oxytocin < 3/10 then ["distant"] else []) ++
    (if 7/10 < serotonin then ["balanced"] else if serotonin < 3/10 then ["unstable"] else [])
  if prefixes ≠ [] ∧ coin = true then
    prefixes.getD (pick % prefixes.length) base_mood ++ "-" ++ base_mood
  else base_mood

/-- `infer_mood_from_hormones` of the source: score, detect undefined states,
otherwise pick the mood with the largest absolute score and decorate it. -/
def infer_mood_from_hormones (hormone_levels : HormoneRecord) (mood_weights : MoodWeights)
    (coin : Bool) (pick : ℕ) : Option (String × ℚ) :=
  let mood_scores := calculate_mood_scores hormone_levels mood_weights
  match detect_undefined_mood_state mood_scores hormone_levels (15/100) with
  | none => none
  | some res =>
    if res.1 = true then some (res.2.1, max 0 (min 1 res.2.2))
    else
      let best := mood_scores.foldl
        (fun acc ms => if |acc.2| < |ms.2| then ms else acc) ("neutral", 0)
      some (generate_emergent_mood_variations best.1 hormone_levels coin pick,
            max 0 (min 1 (|best.2|)))

/-- The context record built by `get_mood_context`. -/
structure MoodContext where
  mood : String
  intensity : ℚ
  is_hybrid : Bool
  is_emergent : Bool
  stability : String
deriving DecidableEq

/-- `get_mood_context` of the source. -/
def get_mood_context (mood_name : String) (intensity : ℚ) : MoodContext :=
  { mood := mood_name
    intensity := intensity
    is_hybrid := strContains mood_name "-" &&
      !(["well-being", "self-esteem"].contains mood_name)
    is_emergent := ["undefined", "manic", "melancholic", "overwhelmed", "numb"].any
      (fun p => strContains mood_name p)
    stability := if 8/10 < intensity then "low"
      else if 4/10 < intensity then "medium" else "high" }

/-- One entry of `persona/mood_history.json`. -/
structure MoodHistoryEntry where
  timestamp : String
  mood : String
  intensity : ℚ
  reason : String
  is_hybrid : Bool
  is_emergent : Bool
  stability : String
  hormone_snapshot : Option HormoneRecord
deriving DecidableEq

/-- The snapshot document `persona/mood_adjustments.json`. -/
structure MoodData where
  current_mood : String
  intensity : ℚ
  context : MoodContext
  last_updated : String
deriving DecidableEq

/-- The persisted state touched by `update_mood`: the mood snapshot, the mood
history and the hormone record (read for the optional entry snapshot). -/
structure MoodStore where
  mood_adjustments : Option MoodData
  mood_history : List MoodHistoryEntry
  hormones : HormoneRecord
deriving DecidableEq

/-- The history entry built by `update_mood`; the hormone snapshot is attached
only when `reason` is non-empty and mentions "contextual" or "hormone_event". -/
def mk_history_entry (mood : String) (intensity : ℚ) (reason : String)
    (ctx : MoodContext) (now : String) (hormones : HormoneRecord) : MoodHistoryEntry :=
  { timestamp := now
    mood := mood
    intensity := intensity
    reason := reason
    is_hybrid := ctx.is_hybrid
    is_emergent := ctx.is_emergent
    stability := ctx.stability
    hormone_snapshot :=
      if reason ≠ "" ∧ (strContains reason "contextual" = true ∨
          strContains reason "hormone_event" = true)
      then some hormones else none }

/-- The history trim of `update_mood`: `if len(history) > 100: history = history[-100:]`. -/
def trim_history {α : Type} (history : List α) : List α :=
  if 100 < history.length then history.drop (history.length - 100) else history

/-- `update_mood` of the source with I/O made explicit. `writeOk` tells whether
the snapshot write succeeds; on failure the function logs and returns at once,
so neither document changes. `now` stands for `datetime.utcnow().isoformat()`. -/
def update_mood (writeOk : Bool) (new_mood : String) (intensity : ℚ) (reason : String)
    (hormone_context : Option MoodContext) (now : String) (store : MoodStore) : MoodStore :=
  let ctx := hormone_context.getD (get_mood_context new_mood intensity)
  let mood_data : MoodData :=
    { current_mood := new_mood, intensity := intensity, context := ctx, last_updated := now }
  if writeOk then
    { store with
      mood_adjustments := some mood_data
      mood_history := trim_history
        (store.mood_history ++ [mk_history_entry new_mood intensity reason ctx now store.hormones]) }
  else store

/-- The history entry a successful `update_mood` call appends, as a function of
the call data (mood, intensity, reason, timestamp) and the hormone record. -/
def call_entry (hormones : HormoneRecord) (c : String × ℚ × String × String) :
    MoodHistoryEntry :=
  mk_history_entry c.1 c.2.1 c.2.2.1 (get_mood_context c.1 c.2.1) c.2.2.2 hormones

/-- A sequence of successful `update_mood` calls: each call gives
(mood, intensity, reason, timestamp). -/
def apply_mood_calls (store : MoodStore) (calls : List (String × ℚ × String × String)) :
    MoodStore :=
  calls.foldl (fun st c => update_mood true c.1 c.2.1 c.2.2.1 none c.2.2.2 st) store

/-- The last `n` entries of a list, in order (`l[-n:]` in Python). -/
def takeLast {α : Type} (n : ℕ) (l : List α) : List α := l.drop (l.length - n)

/-- Every level of the record lies in [0, 1]. -/
def allIn01 (r : HormoneRecord) : Prop := ∀ p ∈ r, 0 ≤ p.2 ∧ p.2 ≤ 1

/-! Lemmas about the decay step. -/

lemma decayVal_of_ge {v : ℚ} (h : 1/2 + 1/100 ≤ v) : decayVal v = v - 1/100 := by
  unfold decayVal
  rw [if_pos (by linarith), max_eq_right (by linarith)]

lemma decayVal_of_le {v : ℚ} (h : v ≤ 1/2 - 1/100) : decayVal v = v + 1/100 := by
  unfold decayVal
  rw [if_neg (by linarith), if_pos (by linarith), min_eq_right (by linarith)]

lemma decayVal_mid {v : ℚ} (h1 : 1/2 - 1/100 < v) (h2 : v < 1/2 + 1/100) :
    decayVal v = 1/2 := by
  unfold decayVal
  rcases lt_trichotomy v (1/2) with hv | hv | hv
  · rw [if_neg (by linarith), if_pos hv, min_eq_left (by linarith)]
  · rw [if_neg (by linarith), if_neg (by linarith)]
    exact hv
  · rw [if_pos hv, max_eq_left (by linarith)]

lemma decay_iterate_aux : ∀ (k : ℕ) (v : ℚ), |v - 1/2| ≤ (k : ℚ)/100 →
    decayVal^[k] v = 1/2 := by
  intro k
  induction k with
  | zero =>
    intro v h
    have h0 : |v - 1/2| = 0 := le_antisymm (by simpa using h) (abs_nonneg _)
    have : v = 1/2 := by
      have := abs_eq_zero.mp h0
      linarith
    simpa using this
  | succ k ih =>
    intro v h
    rw [Function.iterate_succ_apply]
    apply ih
    rw [abs_le] at h
    push_cast at h
    rcases le_or_lt v (1/2 - 1/100) with hv | hv
    · rw [decayVal_of_le hv, abs_le]
      constructor <;> linarith
    · rcases le_or_lt (1/2 + 1/100) v with hv2 | hv2
      · rw [decayVal_of_ge hv2, abs_le]
        constructor <;> linarith
      · rw [decayVal_mid hv hv2]
        simp
        positivity

lemma decay_converges (v : ℚ) : ∃ n, decayVal^[n] v = 1/2 := by
  refine ⟨⌈|v - 1/2| * 100⌉₊, decay_iterate_aux _ v ?_⟩
  have hc := Nat.le_ceil (|v - 1/2| * 100)
  linarith

/-- C5 helper: an event outside the known vocabulary leaves the record untouched
before decay. -/
lemma adjust_event_unknown {e : Option String}
    (he : ∀ s ∈ legacy_events, e ≠ some s) (r : HormoneRecord) :
    adjust_event e r = some r := by
  have h1 := he "positive_feedback" (by simp [legacy_events])
  have h2 := he "stress" (by simp [legacy_events])
  have h3 := he "social_connection" (by simp [legacy_events])
  have h4 := he "isolation" (by simp [legacy_events])
  have h5 := he "achievement" (by simp [legacy_events])
  have h6 := he "disappointment" (by simp [legacy_events])
  unfold adjust_event
  rw [if_neg h1, if_neg h2, if_neg h3, if_neg h4, if_neg h5, if_neg h6]

/-- C5: the homeostatic decay step moves every hormone level 0.01 toward 0.5
with floor and ceiling at 0.5: a decay-only call of `adjust_hormones` (unknown
event) decays the whole record; a level above 0.5 strictly decreases but never
drops below 0.5, a level below 0.5 strictly increases but never exceeds 0.5, a
level at distance at least 0.01 moves by exactly 0.01, a level at 0.5 stays, and
iterating the decay from any level reaches exactly 0.5. -/
theorem C5_decay_toward_half (r : HormoneRecord) (e : Option String)
    (he : ∀ s ∈ legacy_events, e ≠ some s) (v : ℚ) :
    adjust_hormones e r = some (applyDecay r) ∧
    decayVal (1/2) = 1/2 ∧
    (1/2 < v → 1/2 ≤ decayVal v ∧ decayVal v < v) ∧
    (v < 1/2 → v < decayVal v ∧ decayVal v ≤ 1/2) ∧
    (1/2 + 1/100 ≤ v → decayVal v = v - 1/100) ∧
    (v ≤ 1/2 - 1/100 → decayVal v = v + 1/100) ∧
    (∃ n, decayVal^[n] v = 1/2) := by
  refine ⟨?_, by norm_num [decayVal], ?_, ?_, decayVal_of_ge, decayVal_of_le,
    decay_converges v⟩
  · unfold adjust_hormones
    rw [adjust_event_unknown he, Option.map_some']
  · intro h
    unfold decayVal
    rw [if_pos h]
    exact ⟨le_max_left _ _, max_lt (by linarith) (by linarith)⟩
  · intro h
    unfold decayVal
    rw [if_neg (by linarith), if_pos h]
    exact ⟨lt_min (by linarith) (by linarith), min_le_left _ _⟩

/-- C5 witness: the decay statement at the unknown event "noop", the default
record and the concrete level 0.63. -/
theorem C5_decay_toward_half_witness :
    adjust_hormones (some "noop") DEFAULT_HORMONES = some (applyDecay DEFAULT_HORMONES) ∧
    decayVal (1/2) = 1/2 ∧
    (1/2 < (63:ℚ)/100 → 1/2 ≤ decayVal (63/100) ∧ decayVal (63/100) < 63/100) ∧
    ((63:ℚ)/100 < 1/2 → (63:ℚ)/100 < decayVal (63/100) ∧ decayVal (63/100) ≤ 1/2) ∧
    (1/2 + 1/100 ≤ (63:ℚ)/100 → decayVal (63/100) = 63/100 - 1/100) ∧
    ((63:ℚ)/100 ≤ 1/2 - 1/100 → decayVal (63/100) = 63/100 + 1/100) ∧
    (∃ n, decayVal^[n] ((63:ℚ)/100) = 1/2) :=
  C5_decay_toward_half DEFAULT_HORMONES (some "noop") (by decide) (63/100)

/-! Lemmas about the bounded mood history. -/

lemma trim_history_eq_takeLast {α : Type} (l : List α) :
    trim_history l = takeLast 100 l := by
  unfold trim_history takeLast
  split_ifs with h
  · rfl
  · rw [Nat.sub_eq_zero_of_le (by omega), List.drop_zero]

lemma takeLast_append_right {α : Type} (l₁ l₂ : List α) {n : ℕ} (h : n ≤ l₂.length) :
    takeLast n (l₁ ++ l₂) = takeLast n l₂ := by
  unfold takeLast
  rw [List.length_append]
  have heq : l₁.length + l₂.length - n = l₁.length + (l₂.length - n) := by omega
  rw [heq, List.drop_append]

lemma length_takeLast {α : Type} (l : List α) {n : ℕ} (h : n ≤ l.length) :
    (takeLast n l).length = n := by
  unfold takeLast
  rw [List.length_drop]
  omega

lemma takeLast_takeLast_append {α : Type} (l m : List α) (n : ℕ) :
    takeLast n (takeLast n l ++ m) = takeLast n (l ++ m) := by
  by_cases h : l.length ≤ n
  · have hl : takeLast n l = l := by
      unfold takeLast
      rw [Nat.sub_eq_zero_of_le h, List.drop_zero]
    rw [hl]
  · push_neg at h
    have h1 : (takeLast n l).length = n := length_takeLast l h.le
    have hlen : n ≤ (takeLast n l ++ m).length := by
      rw [List.length_append, h1]
      omega
    have hld : List.drop (l.length - n) l = takeLast n l := rfl
    conv_rhs => rw [← List.take_append_drop (l.length - n) l]
    rw [List.append_assoc, hld, takeLast_append_right _ _ hlen]

lemma foldl_trim_cons {α : Type} : ∀ (es : List α) (e : α) (h0 : List α),
    (e :: es).foldl (fun h x => trim_history (h ++ [x])) h0 = takeLast 100 (h0 ++ e :: es) := by
  intro es
  induction es with
  | nil =>
    intro e h0
    rw [List.foldl_cons, List.foldl_nil, trim_history_eq_takeLast]
  | cons e' es ih =>
    intro e h0
    rw [List.foldl_cons, ih e' (trim_history (h0 ++ [e])), trim_history_eq_takeLast,
      takeLast_takeLast_append]
    congr 1
    simp

lemma apply_mood_calls_unfold :
    ∀ (calls : List (String × ℚ × String × String)) (store : MoodStore),
    (apply_mood_calls store calls).hormones = store.hormones ∧
    (apply_mood_calls store calls).mood_history =
      calls.foldl (fun h c => trim_history (h ++ [call_entry store.hormones c]))
        store.mood_history := by
  intro calls
  induction calls with
  | nil => intro store; exact ⟨rfl, rfl⟩
  | cons c cs ih =>
    intro store
    obtain ⟨ih1, ih2⟩ := ih (update_mood true c.1 c.2.1 c.2.2.1 none c.2.2.2 store)
    have hstep : apply_mood_calls store (c :: cs) =
        apply_mood_calls (update_mood true c.1 c.2.1 c.2.2.1 none c.2.2.2 store) cs := rfl
    refine ⟨by rw [hstep, ih1]; rfl, ?_⟩
    rw [hstep, ih2, List.foldl_cons]
    rfl

/-- C6: after at least 100 successful `update_mood` calls the stored mood history
has length exactly 100 and consists of the 100 most recent entries, in original
append order (FIFO eviction of the oldest). -/
theorem C6_history_window (store : MoodStore) (calls : List (String × ℚ × String × String))
    (hN : 100 ≤ calls.length) :
    (apply_mood_calls store calls).mood_history.length = 100 ∧
    (apply_mood_calls store calls).mood_history =
      takeLast 100 (store.mood_history ++ calls.map (call_entry store.hormones)) := by
  obtain ⟨-, h2⟩ := apply_mood_calls_unfold calls store
  have hmain : (apply_mood_calls store calls).mood_history =
      takeLast 100 (store.mood_history ++ calls.map (call_entry store.hormones)) := by
    rw [h2, ← List.foldl_map (call_entry store.hormones)
      (fun h x => trim_history (h ++ [x]))]
    cases calls with
    | nil => simp at hN
    | cons c cs =>
      rw [List.map_cons, foldl_trim_cons]
  refine ⟨?_, hmain⟩
  rw [hmain]
  apply length_takeLast
  rw [List.length_append, List.length_map]
  omega

/-- C6 witness: 100 identical calls against the empty store leave exactly the
100 mapped entries. -/
theorem C6_history_window_witness :
    (apply_mood_calls ⟨none, [], DEFAULT_HORMONES⟩
      (List.replicate 100 ("happy", 1/2, "", "t0"))).mood_history.length = 100 ∧
    (apply_mood_calls ⟨none, [], DEFAULT_HORMONES⟩
      (List.replicate 100 ("happy", 1/2, "", "t0"))).mood_history =
      takeLast 100 ((⟨none, [], DEFAULT_HORMONES⟩ : MoodStore).mood_history ++
        (List.replicate 100 ("happy", 1/2, "", "t0")).map
          (call_entry (⟨none, [], DEFAULT_HORMONES⟩ : MoodStore).hormones)) :=
  C6_history_window ⟨none, [], DEFAULT_HORMONES⟩ _ (by simp)

/-- C8 counterexample: when the snapshot write fails, the history entry of that
call is NOT appended (the claim says it still is): with an empty starting
history the failed call leaves the history empty while the successful call
appends its entry. -/
theorem C8_write_failure_counterexample :
    (update_mood false "happy" (1/2) "contextual_analysis" none "t1"
      ⟨none, [], DEFAULT_HORMONES⟩).mood_history = [] ∧
    (update_mood true "happy" (1/2) "contextual_analysis" none "t1"
      ⟨none, [], DEFAULT_HORMONES⟩).mood_history ≠ [] := by
  refine ⟨rfl, ?_⟩
  intro h
  simp [update_mood, trim_history, mk_history_entry] at h

/-- C8 (amended): on a write failure of the mood snapshot document `update_mood`
logs and returns at once, so the whole store — snapshot and mood history — is
left unchanged; in particular the history entry for that call is not appended. -/
theorem C8_write_failure_no_append (new_mood : String) (intensity : ℚ) (reason : String)
    (hormone_context : Option MoodContext) (now : String) (store : MoodStore) :
    update_mood false new_mood intensity reason hormone_context now store = store := rfl

/-- Lookup of the head key of a record. -/
lemma getH_cons_self (k : String) (v : ℚ) (r : HormoneRecord) :
    getH ((k, v) :: r) k = v := by
  rw [getH, lookupH, List.find?_cons_of_pos _ (by simp)]
  rfl

/-- Lookup skips a head entry with a different key. -/
lemma getH_cons_ne (k h : String) (v : ℚ) (r : HormoneRecord) (hne : k ≠ h) :
    getH ((k, v) :: r) h = getH r h := by
  rw [getH, lookupH, List.find?_cons_of_neg _ (by simp [hne])]
  rfl

/-- C9 helper: `detect_undefined_mood_state` returns a value on every non-empty
score table. -/
lemma detect_isSome {scores : List (String × ℚ)} (hne : scores ≠ [])
    (r : HormoneRecord) (thr : ℚ) :
    (detect_undefined_mood_state scores r thr).isSome = true := by
  have hlen : (scores.mergeSort byAbsDesc).length = scores.length :=
    List.length_mergeSort scores
  rcases hms : scores.mergeSort byAbsDesc with _ | ⟨a, _ | ⟨b, tl⟩⟩
  · rw [hms] at hlen
    cases scores with
    | nil => exact absurd rfl hne
    | cons x xs => simp at hlen
  · simp [detect_undefined_mood_state, hms]
  · simp only [detect_undefined_mood_state, hms]
    split_ifs <;> simp

/-- C9: the mood engine is total only for a non-empty mood-weight table. On an
empty table the score map is empty and `detect_undefined_mood_state` raises
(`none`, the `IndexError` of `sorted_moods[0]`), hence so does
`infer_mood_from_hormones`; on any non-empty table both return a value, so the
single-mood "definitionally defined" rule does not extend to zero moods. -/
theorem C9_empty_table_raises (hormone_levels : HormoneRecord) (thr : ℚ)
    (p : String × ℚ) (scores : List (String × ℚ))
    (q : String × List (String × ℚ)) (mws : MoodWeights) (coin : Bool) (pick : ℕ) :
    detect_undefined_mood_state [] hormone_levels thr = none ∧
    infer_mood_from_hormones hormone_levels [] coin pick = none ∧
    (detect_undefined_mood_state (p :: scores) hormone_levels thr).isSome = true ∧
    (infer_mood_from_hormones hormone_levels (q :: mws) coin pick).isSome = true := by
  have hnil : ∀ t : ℚ, detect_undefined_mood_state [] hormone_levels t = none := by
    intro t
    simp [detect_undefined_mood_state]
  have hinf : infer_mood_from_hormones hormone_levels [] coin pick = none := by
    simp only [infer_mood_from_hormones, calculate_mood_scores, List.map_nil, hnil]
  refine ⟨hnil thr, hinf, detect_isSome (by simp) _ _, ?_⟩
  have h1 : (detect_undefined_mood_state
      (calculate_mood_scores hormone_levels (q :: mws)) hormone_levels (15/100)).isSome =
      true := by
    apply detect_isSome (by simp [calculate_mood_scores])
  obtain ⟨res, hres⟩ := Option.isSome_iff_exists.mp h1
  simp only [infer_mood_from_hormones, hres]
  split_ifs <;> simp

/-- C2: whenever the two top-ranked |score| values of the sorted mood table lie
within 0.15 of each other, the state is a hybrid: "{second}-{top}" when both
scores are positive, "conflicted-{top}" when both are negative, and
"bittersweet-{the positive one}" when the signs differ, with intensity the
average of the two |score| values clamped to [0,1]. -/
theorem C2_hybrid_rule (mood_scores : List (String × ℚ)) (hormone_levels : HormoneRecord)
    (top second : String × ℚ) (rest : List (String × ℚ))
    (hsorted : mood_scores.mergeSort byAbsDesc = top :: second :: rest)
    (hclose : |(|top.2| - |second.2|)| < 15/100) :
    (0 < top.2 → 0 < second.2 →
      detect_undefined_mood_state mood_scores hormone_levels (15/100) =
        some (true, second.1 ++ "-" ++ top.1, min 1 ((|top.2| + |second.2|) / 2))) ∧
    (top.2 < 0 → second.2 < 0 →
      detect_undefined_mood_state mood_scores hormone_levels (15/100) =
        some (true, "conflicted-" ++ top.1, min 1 ((|top.2| + |second.2|) / 2))) ∧
    (0 < top.2 → second.2 < 0 →
      detect_undefined_mood_state mood_scores hormone_levels (15/100) =
        some (true, "bittersweet-" ++ top.1, min 1 ((|top.2| + |second.2|) / 2))) ∧
    (top.2 < 0 → 0 < second.2 →
      detect_undefined_mood_state mood_scores hormone_levels (15/100) =
        some (true, "bittersweet-" ++ second.1, min 1 ((|top.2| + |second.2|) / 2))) := by
  refine ⟨?_, ?_, ?_, ?_⟩ <;> intro h1 h2 <;>
    simp only [detect_undefined_mood_state, hsorted] <;>
    rw [if_pos hclose]
  · rw [if_pos ⟨h1, h2⟩]
  · rw [if_neg (by rintro ⟨hh, -⟩; linarith), if_pos ⟨h1, h2⟩]
  · rw [if_neg (by rintro ⟨-, hh⟩; linarith), if_neg (by rintro ⟨hh, -⟩; linarith),
      if_pos h1]
  · rw [if_neg (by rintro ⟨hh, -⟩; linarith), if_neg (by rintro ⟨-, hh⟩; linarith),
      if_neg (by exact fun hh => absurd hh (by linarith))]

/-- C2 witness: the spec scenario — scores 0.40 and 0.33 (difference 0.07 < 0.15,
both positive) give the hybrid "{second}-{top}" with intensity 0.365. -/
theorem C2_hybrid_rule_witness :
    detect_undefined_mood_state [("alpha", 2/5), ("beta", 33/100)] [] (15/100) =
      some (true, "beta-alpha", 73/200) := by
  have h := (C2_hybrid_rule [("alpha", 2/5), ("beta", 33/100)] []
      ("alpha", 2/5) ("beta", 33/100) []
      (by norm_num [List.mergeSort, List.merge, byAbsDesc, abs_of_nonneg])
      (by norm_num [abs_of_nonneg])).1 (by norm_num) (by norm_num)
  rw [h]
  norm_num [abs_of_nonneg]
  decide

/-- C3: when the table has at least two moods and neither the hybrid rule nor
the flat-affect rule fires, dopamine and cortisol both above 0.7 yield the
archetype "manic-energy" with intensity the mean of the two. -/
theorem C3_manic_energy (mood_scores : List (String × ℚ)) (hormone_levels : HormoneRecord)
    (top second : String × ℚ) (rest : List (String × ℚ))
    (hsorted : mood_scores.mergeSort byAbsDesc = top :: second :: rest)
    (hfar : ¬ |(|top.2| - |second.2|)| < 15/100)
    (hflat : ¬ (mood_scores.map (fun p => |p.2|)).foldl max 0 < 2/10)
    (hd : 7/10 < getH hormone_levels "dopamine")
    (hc : 7/10 < getH hormone_levels "cortisol") :
    detect_undefined_mood_state mood_scores hormone_levels (15/100) =
      some (true, "manic-energy",
        (getH hormone_levels "dopamine" + getH hormone_levels "cortisol") / 2) := by
  simp only [detect_undefined_mood_state, hsorted]
  rw [if_neg hfar, if_neg hflat, if_pos ⟨hd, hc⟩]

/-- C3 witness: the spec scenario — record {dopamine 0.75, cortisol 0.75,
serotonin 0.5, oxytocin 0.5} with a two-mood table whose scores (0.75, 0.30) are
neither close nor flat gives "manic-energy" with intensity 0.75. -/
theorem C3_manic_energy_witness :
    calculate_mood_scores
        [("dopamine", 3/4), ("serotonin", 1/2), ("cortisol", 3/4), ("oxytocin", 1/2)]
        [("a", [("dopamine", 1)]), ("b", [("dopamine", 2/5)])] =
      [("a", 3/4), ("b", 3/10)] ∧
    detect_undefined_mood_state [("a", 3/4), ("b", 3/10)]
        [("dopamine", 3/4), ("serotonin", 1/2), ("cortisol", 3/4), ("oxytocin", 1/2)]
        (15/100) =
      some (true, "manic-energy", 3/4) := by
  have hgd : getH [("dopamine", (3:ℚ)/4), ("serotonin", 1/2), ("cortisol", 3/4),
      ("oxytocin", 1/2)] "dopamine" = 3/4 := getH_cons_self _ _ _
  have hgc : getH [("dopamine", (3:ℚ)/4), ("serotonin", 1/2), ("cortisol", 3/4),
      ("oxytocin", 1/2)] "cortisol" = 3/4 := by
    rw [getH_cons_ne _ _ _ _ (by decide), getH_cons_ne _ _ _ _ (by decide),
      getH_cons_self]
  constructor
  · rw [calculate_mood_scores]
    simp only [List.map_cons, List.map_nil, List.foldl_cons, List.foldl_nil, hgd]
    norm_num
  · have h := C3_manic_energy [("a", 3/4), ("b", 3/10)]
      [("dopamine", 3/4), ("serotonin", 1/2), ("cortisol", 3/4), ("oxytocin", 1/2)]
      ("a", 3/4) ("b", 3/10) []
      (by norm_num [List.mergeSort, List.merge, byAbsDesc, abs_of_nonneg])
      (by norm_num [abs_of_nonneg])
      (by norm_num [List.foldl, abs_of_nonneg, max_def])
      (by rw [hgd]; norm_num)
      (by rw [hgc]; norm_num)
    rw [h, hgd, hgc]
    norm_num

/-! Lemmas for the clamping invariant (C4). -/

lemma lookupH_bounds {r : HormoneRecord} {h : String} {v : ℚ}
    (h01 : allIn01 r) (hl : lookupH r h = some v) : 0 ≤ v ∧ v ≤ 1 := by
  rw [lookupH, Option.map_eq_some'] at hl
  obtain ⟨p, hp, rfl⟩ := hl
  exact h01 p (List.mem_of_find?_eq_some hp)

lemma allIn01_setH {r : HormoneRecord} {h : String} {v : ℚ}
    (h01 : allIn01 r) (hv : 0 ≤ v ∧ v ≤ 1) : allIn01 (setH r h v) := by
  intro p hp
  rw [setH] at hp
  obtain ⟨q, hq, rfl⟩ := List.mem_map.mp hp
  by_cases hqh : q.1 = h
  · simpa [hqh] using hv
  · simpa [hqh] using h01 q hq

lemma decayVal_bounds {v : ℚ} (h0 : 0 ≤ v) (h1 : v ≤ 1) :
    0 ≤ decayVal v ∧ decayVal v ≤ 1 := by
  unfold decayVal
  split_ifs with hgt hlt
  · exact ⟨le_trans (by norm_num) (le_max_left _ _), max_le (by norm_num) (by linarith)⟩
  · exact ⟨le_min (by norm_num) (by linarith), le_trans (min_le_left _ _) (by norm_num)⟩
  · exact ⟨h0, h1⟩

lemma allIn01_applyDecay {r : HormoneRecord} (h01 : allIn01 r) :
    allIn01 (applyDecay r) := by
  intro p hp
  rw [applyDecay] at hp
  obtain ⟨q, hq, rfl⟩ := List.mem_map.mp hp
  obtain ⟨hq0, hq1⟩ := h01 q hq
  exact decayVal_bounds hq0 hq1

lemma allIn01_applyDelta {r r' : HormoneRecord} {h : String} {d : ℚ}
    (h01 : allIn01 r) (happ : applyDelta r h d = some r') : allIn01 r' := by
  unfold applyDelta at happ
  cases hl : lookupH r h with
  | none => rw [hl] at happ; exact absurd happ (by simp)
  | some v =>
    rw [hl] at happ
    obtain rfl := Option.some.inj happ
    refine allIn01_setH h01 ⟨le_max_left _ _, max_le (by norm_num) (min_le_left _ _)⟩

lemma allIn01_apply_deltas : ∀ (l : List (String × ℚ)) (m : ℚ) (r r' : HormoneRecord),
    allIn01 r → apply_deltas l m r = some r' → allIn01 r' := by
  intro l
  induction l with
  | nil =>
    intro m r r' h01 happ
    obtain rfl : r = r' := Option.some.inj happ
    exact h01
  | cons hd tl ih =>
    intro m r r' h01 happ
    rw [apply_deltas, List.foldlM_cons] at happ
    obtain ⟨r1, h1, h2⟩ := Option.bind_eq_some.mp happ
    exact ih m r1 r' (allIn01_applyDelta h01 h1) h2

lemma min_shift_bounds (c : ℚ) (hc : 0 ≤ c) :
    ∀ v : ℚ, 0 ≤ v → v ≤ 1 → 0 ≤ min 1 (v + c) ∧ min 1 (v + c) ≤ 1 :=
  fun v h0 _ => ⟨le_min (by norm_num) (by linarith), min_le_left _ _⟩

lemma max_shift_bounds (c : ℚ) (hc : 0 ≤ c) :
    ∀ v : ℚ, 0 ≤ v → v ≤ 1 → 0 ≤ max 0 (v - c) ∧ max 0 (v - c) ≤ 1 :=
  fun v _ h1 => ⟨le_max_left _ _, max_le (by norm_num) (by linarith)⟩

lemma allIn01_bumpWith {g : ℚ → ℚ} {r r' : HormoneRecord} {h : String}
    (hg : ∀ v : ℚ, 0 ≤ v → v ≤ 1 → 0 ≤ g v ∧ g v ≤ 1)
    (h01 : allIn01 r) (happ : bumpWith g r h = some r') : allIn01 r' := by
  rw [bumpWith, Option.map_eq_some'] at happ
  obtain ⟨v, hv, rfl⟩ := happ
  obtain ⟨h0, h1⟩ := lookupH_bounds h01 hv
  exact allIn01_setH h01 (hg v h0 h1)

lemma allIn01_bump_chain {g1 g2 : ℚ → ℚ} {r r' : HormoneRecord} {h1 h2 : String}
    (hg1 : ∀ v : ℚ, 0 ≤ v → v ≤ 1 → 0 ≤ g1 v ∧ g1 v ≤ 1)
    (hg2 : ∀ v : ℚ, 0 ≤ v → v ≤ 1 → 0 ≤ g2 v ∧ g2 v ≤ 1)
    (h01 : allIn01 r)
    (happ : (bumpWith g1 r h1).bind (fun r1 => bumpWith g2 r1 h2) = some r') :
    allIn01 r' := by
  obtain ⟨r1, ha, hb⟩ := Option.bind_eq_some.mp happ
  exact allIn01_bumpWith hg2 (allIn01_bumpWith hg1 h01 ha) hb

lemma allIn01_adjust_event {e : Option String} {r r' : HormoneRecord}
    (h01 : allIn01 r) (happ : adjust_event e r = some r') : allIn01 r' := by
  unfold adjust_event at happ
  split_ifs at happ
  · exact allIn01_bump_chain (min_shift_bounds _ (by norm_num))
      (min_shift_bounds _ (by norm_num)) h01 happ
  · exact allIn01_bump_chain (min_shift_bounds _ (by norm_num))
      (max_shift_bounds _ (by norm_num)) h01 happ
  · exact allIn01_bump_chain (min_shift_bounds _ (by norm_num))
      (min_shift_bounds _ (by norm_num)) h01 happ
  · exact allIn01_bump_chain (max_shift_bounds _ (by norm_num))
      (min_shift_bounds _ (by norm_num)) h01 happ
  · exact allIn01_bump_chain (min_shift_bounds _ (by norm_num))
      (min_shift_bounds _ (by norm_num)) h01 happ
  · exact allIn01_bump_chain (max_shift_bounds _ (by norm_num))
      (max_shift_bounds _ (by norm_num)) h01 happ
  · obtain rfl : r = r' := Option.some.inj happ
    exact h01

/-- C4: starting from a record whose levels all lie in [0,1], every adjustment
operation — contextual sentiment adjustment or legacy event — leaves every
hormone level in [0.0, 1.0]. -/
theorem C4_levels_clamped (r : HormoneRecord) (h01 : allIn01 r) :
    (∀ (text : String) (r' : HormoneRecord),
      apply_contextual_hormone_adjustments text r = some r' → allIn01 r') ∧
    (∀ (event : Option String) (r' : HormoneRecord),
      adjust_hormones event r = some r' → allIn01 r') := by
  constructor
  · intro text r' happ
    simp only [apply_contextual_hormone_adjustments] at happ
    split_ifs at happ
    · obtain rfl : r = r' := Option.some.inj happ
      exact h01
    · obtain ⟨r1, h1, h2⟩ := Option.map_eq_some'.mp happ
      exact h2 ▸ allIn01_applyDecay (allIn01_apply_deltas _ _ _ _ h01 h1)
  · intro event r' happ
    rw [adjust_hormones] at happ
    obtain ⟨r1, h1, h2⟩ := Option.map_eq_some'.mp happ
    exact h2 ▸ allIn01_applyDecay (allIn01_adjust_event h01 h1)

/-- C4 witness: the invariant instantiated at the default record (all levels
0.5, inside [0,1]). -/
theorem C4_levels_clamped_witness :
    (∀ (text : String) (r' : HormoneRecord),
      apply_contextual_hormone_adjustments text DEFAULT_HORMONES = some r' → allIn01 r') ∧
    (∀ (event : Option String) (r' : HormoneRecord),
      adjust_hormones event DEFAULT_HORMONES = some r' → allIn01 r') :=
  C4_levels_clamped DEFAULT_HORMONES (by norm_num [allIn01, DEFAULT_HORMONES])

/-! Lemmas for the KeyError behaviour (C10). -/

/-- A dict write to an existing key never changes which keys are missing. -/
lemma lookupH_setH_none {r : HormoneRecord} {k h : String} {v : ℚ}
    (hnone : lookupH r h = none) : lookupH (setH r k v) h = none := by
  rw [lookupH, Option.map_eq_none'] at hnone ⊢
  rw [List.find?_eq_none] at hnone ⊢
  intro x hx
  obtain ⟨q, hq, rfl⟩ := List.mem_map.mp hx
  have hfst : (if q.1 = k then (q.1, v) else q).1 = q.1 := by split_ifs <;> rfl
  simpa [hfst] using hnone q hq

lemma apply_deltas_none : ∀ (l : List (String × ℚ)) (m : ℚ) (r : HormoneRecord)
    (h : String) (d : ℚ), (h, d) ∈ l → lookupH r h = none →
    apply_deltas l m r = none := by
  intro l
  induction l with
  | nil => intro m r h d hmem; exact absurd hmem (by simp)
  | cons hd tl ih =>
    intro m r h d hmem hnone
    rw [apply_deltas, List.foldlM_cons]
    rcases List.mem_cons.mp hmem with heq | htl
    · obtain rfl : hd = (h, d) := heq.symm
      rw [applyDelta, hnone]
      rfl
    · cases happ : applyDelta r hd.1 (hd.2 * m) with
      | none => rfl
      | some r1 =>
        simp only [Option.bind_eq_bind, Option.some_bind]
        unfold applyDelta at happ
        cases hl : lookupH r hd.1 with
        | none => rw [hl] at happ; exact absurd happ (by simp)
        | some v =>
          rw [hl] at happ
          obtain rfl := Option.some.inj happ
          exact ih m _ h d htl (lookupH_setH_none hnone)

/-- A two-write event chain raises when either touched hormone is missing. -/
lemma bump_chain_none {g1 g2 : ℚ → ℚ} {r : HormoneRecord} {h1 h2 hm : String}
    (hcase : hm = h1 ∨ hm = h2) (hnone : lookupH r hm = none) :
    (bumpWith g1 r h1).bind (fun r1 => bumpWith g2 r1 h2) = none := by
  rcases hcase with rfl | rfl
  · rw [bumpWith, hnone]
    rfl
  · cases hb : bumpWith g1 r h1 with
    | none => rfl
    | some r1 =>
      rw [Option.some_bind]
      rw [bumpWith, Option.map_eq_some'] at hb
      obtain ⟨v, hv, rfl⟩ := hb
      rw [bumpWith, lookupH_setH_none hnone]
      rfl

lemma adjust_event_none {e hm : String} {r : HormoneRecord}
    (he : e ∈ legacy_events) (huse : hm ∈ event_hormones e)
    (hnone : lookupH r hm = none) : adjust_event (some e) r = none := by
  simp only [legacy_events, List.mem_cons, List.not_mem_nil, or_false] at he
  rcases he with rfl | rfl | rfl | rfl | rfl | rfl <;>
    simp only [event_hormones, List.mem_cons, List.not_mem_nil, or_false] at huse <;>
    unfold adjust_event <;>
    simp only [Option.some.injEq, if_true, if_false, reduceIte] <;>
    exact bump_chain_none huse hnone

/-- The four-hormone default level used by the scoring path. -/
lemma getH_default (hname : String) : getH DEFAULT_HORMONES hname = 1/2 := by
  by_cases h1 : hname = "dopamine"
  · subst h1; exact getH_cons_self _ _ _
  by_cases h2 : hname = "serotonin"
  · subst h2
    rw [DEFAULT_HORMONES, getH_cons_ne _ _ _ _ (by decide)]
    exact getH_cons_self _ _ _
  by_cases h3 : hname = "cortisol"
  · subst h3
    rw [DEFAULT_HORMONES, getH_cons_ne _ _ _ _ (by decide),
      getH_cons_ne _ _ _ _ (by decide)]
    exact getH_cons_self _ _ _
  by_cases h4 : hname = "oxytocin"
  · subst h4
    rw [DEFAULT_HORMONES, getH_cons_ne _ _ _ _ (by decide),
      getH_cons_ne _ _ _ _ (by decide), getH_cons_ne _ _ _ _ (by decide)]
    exact getH_cons_self _ _ _
  · rw [DEFAULT_HORMONES, getH_cons_ne _ _ _ _ (Ne.symm h1),
      getH_cons_ne _ _ _ _ (Ne.symm h2), getH_cons_ne _ _ _ _ (Ne.symm h3),
      getH_cons_ne _ _ _ _ (Ne.symm h4)]
    rfl

lemma score_fold_eq : ∀ (ws : List (String × ℚ)) (acc : ℚ),
    ws.foldl (fun s hw => s + getH [] hw.1 * hw.2) acc =
      ws.foldl (fun s hw => s + getH DEFAULT_HORMONES hw.1 * hw.2) acc := by
  intro ws
  induction ws with
  | nil => intro acc; rfl
  | cons hw tl ih =>
    intro acc
    rw [List.foldl_cons, List.foldl_cons, getH_default]
    have h0 : getH [] hw.1 = 1/2 := rfl
    rw [h0]
    exact ih _

/-- C10: the 0.5 default for absent hormones is applied by the scoring path only;
both adjustment paths index the loaded record directly, so a sentiment result or
a known legacy event that adjusts a hormone missing from the record raises a
`KeyError` (modelled `none`) instead of defaulting to 0.5 — while scoring an
empty record behaves exactly like scoring the all-0.5 default record. -/
theorem C10_missing_hormone_raises (text : String) (r : HormoneRecord) (h : String)
    (d : ℚ) (e : String) (h2 : String) (weights : MoodWeights) :
    ((h, d) ∈ (analyze_contextual_sentiment text).hormone_adjustments →
      lookupH r h = none → apply_contextual_hormone_adjustments text r = none) ∧
    (e ∈ legacy_events → h2 ∈ event_hormones e → lookupH r h2 = none →
      adjust_hormones (some e) r = none) ∧
    calculate_mood_scores [] weights = calculate_mood_scores DEFAULT_HORMONES weights := by
  refine ⟨?_, ?_, ?_⟩
  · intro hmem hnone
    simp only [apply_contextual_hormone_adjustments]
    split_ifs with hemp
    · rw [List.isEmpty_iff] at hemp
      rw [hemp] at hmem
      exact absurd hmem (by simp)
    · rw [apply_deltas_none _ _ _ _ _ hmem hnone]
      rfl
  · intro he huse hnone
    rw [adjust_hormones, adjust_event_none he huse hnone]
    rfl
  · rw [calculate_mood_scores, calculate_mood_scores]
    apply List.map_congr_left
    intro mw _
    rw [score_fold_eq]

/-- C10 witness: the record {cortisol: 0.6} lacks dopamine; the sentiment result
for "good" (dopamine +0.08) and the legacy event positive_feedback both raise,
and an empty record scores like the default record. -/
theorem C10_missing_hormone_raises_witness :
    apply_contextual_hormone_adjustments "good" [("cortisol", 3/5)] = none ∧
    adjust_hormones (some "positive_feedback") [("cortisol", 3/5)] = none ∧
    calculate_mood_scores [] [("cheerful", [("dopamine", 7/10), ("serotonin", 3/10)])] =
      calculate_mood_scores DEFAULT_HORMONES
        [("cheerful", [("dopamine", 7/10), ("serotonin", 3/10)])] := by
  have h := C10_missing_hormone_raises "good" [("cortisol", 3/5)] "dopamine" (8/100)
    "positive_feedback" "dopamine" [("cheerful", [("dopamine", 7/10), ("serotonin", 3/10)])]
  have hadj : (analyze_contextual_sentiment "good").hormone_adjustments =
      [("dopamine", 8/100), ("serotonin", 5/100)] := rfl
  refine ⟨h.1 ?_ rfl, h.2.1 (by decide) (by decide) rfl, h.2.2⟩
  rw [hadj]
  exact List.mem_cons_self _ _

/-! The contextual intensity modifiers compose multiplicatively (C1, C7). -/

lemma calc_intensity_factored (text : String) (base : ℚ) :
    calculate_contextual_intensity text base =
      min 1 (base * exclamationFactor text * upperFactor text * profanityFactor text *
        repetitionFactor text) := by
  unfold calculate_contextual_intensity intensity_after_exclamation intensity_after_upper
    intensity_after_profanity intensity_after_repetition exclamationFactor upperFactor
    profanityFactor repetitionFactor
  split_ifs
  all_goals exact congrArg (min 1) (by ring)

/-- C1: on the text "I love you so much!!!" the pattern cascade, scanning the
categories in their fixed order, hits the over-broad strong_negative pattern
" you" FIRST — the claimed strong_positive match on "love you" is shadowed.
The category order of the claim holds, the outcome does not: the source's
strong_negative pattern list begins with " you", which occurs in every text
addressing the agent as "you" after a word, so "I love you so much!!!" is
classified strong_negative (intensity clamped to 1 by the three-exclamation
boost 0.8 × 1.3 = 1.04). -/
theorem C1_love_you_classified_strong_negative :
    (analyze_contextual_sentiment "I love you so much!!!").emotion_type =
      "strong_negative" ∧
    (analyze_contextual_sentiment "I love you so much!!!").triggered_by = " you" ∧
    (analyze_contextual_sentiment "I love you so much!!!").method = "pattern_match" ∧
    (analyze_contextual_sentiment "I love you so much!!!").hormone_adjustments =
      [("cortisol", 15/100), ("serotonin", -(10/100)), ("dopamine", -(5/100))] ∧
    (analyze_contextual_sentiment "I love you so much!!!").intensity = 1 := by
  refine ⟨rfl, rfl, rfl, rfl, ?_⟩
  have hi : (analyze_contextual_sentiment "I love you so much!!!").intensity =
      calculate_contextual_intensity "I love you so much!!!" (8/10) := rfl
  rw [hi, calc_intensity_factored]
  have he : exclamationFactor "I love you so much!!!" = 13/10 := by
    rw [exclamationFactor, if_pos (by decide),
      show exclCount "I love you so much!!!" = 3 from by decide]
    norm_num
  have hu : upperFactor "I love you so much!!!" = 1 := by
    rw [upperFactor, if_neg (by decide)]
  have hp : profanityFactor "I love you so much!!!" = 1 := by
    rw [profanityFactor, if_neg (by decide)]
  have hr : repetitionFactor "I love you so much!!!" = 1 := by
    rw [repetitionFactor, if_neg]
    rintro ⟨-, hlt⟩
    rw [show (pySplit (pyLower "I love you so much!!!")).dedup.length = 5 from by decide,
      show (pySplit (pyLower "I love you so much!!!")).length = 5 from by decide] at hlt
    norm_num at hlt
  rw [he, hu, hp, hr]
  norm_num

/-- C7 counterexample: at exactly 30% repeated tokens the boost does NOT fire.
The text "a a a a b c d e f g" has 10 tokens, 7 distinct, so 3 repeated tokens =
exactly 30% of the total; the claim predicts intensity 0.5 × 1.15 but the code
(strict `len(set(words)) < len(words) * 0.7`) leaves intensity at 0.5. -/
theorem C7_repetition_boundary_counterexample :
    1 < (pySplit (pyLower "a a a a b c d e f g")).length ∧
    (3/10 : ℚ) * ((pySplit (pyLower "a a a a b c d e f g")).length : ℚ) ≤
      ((pySplit (pyLower "a a a a b c d e f g")).length : ℚ) -
        ((pySplit (pyLower "a a a a b c d e f g")).dedup.length : ℚ) ∧
    exclamationFactor "a a a a b c d e f g" = 1 ∧
    upperFactor "a a a a b c d e f g" = 1 ∧
    profanityFactor "a a a a b c d e f g" = 1 ∧
    calculate_contextual_intensity "a a a a b c d e f g" (1/2) = 1/2 ∧
    (1:ℚ)/2 ≠ min 1 ((1/2) * (115/100)) := by
  have hlen : (pySplit (pyLower "a a a a b c d e f g")).length = 10 := by decide
  have hded : (pySplit (pyLower "a a a a b c d e f g")).dedup.length = 7 := by decide
  have he : exclamationFactor "a a a a b c d e f g" = 1 := by
    rw [exclamationFactor, if_neg (by decide)]
  have hu : upperFactor "a a a a b c d e f g" = 1 := by
    rw [upperFactor, if_neg (by decide)]
  have hp : profanityFactor "a a a a b c d e f g" = 1 := by
    rw [profanityFactor, if_neg (by decide)]
  have hr : repetitionFactor "a a a a b c d e f g" = 1 := by
    rw [repetitionFactor, if_neg]
    rintro ⟨-, hlt⟩
    rw [hlen, hded] at hlt
    norm_num at hlt
  refine ⟨by rw [hlen]; norm_num, by rw [hlen, hded]; norm_num, he, hu, hp, ?_,
    by norm_num⟩
  rw [calc_intensity_factored, he, hu, hp, hr]
  norm_num

/-- C7 (amended): the four contextual modifiers (exclamation +10% per mark up to
3, all-caps ×1.2, profanity ×1.3, repetition ×1.15) compose by sequential
multiplication with a final clamp to 1.0, and the repetition boost fires exactly
when the text has more than one token and STRICTLY more than 30% repeated tokens
(`len(set(words)) < len(words) * 0.7`). -/
theorem C7_intensity_composition (text : String) (base : ℚ) :
    calculate_contextual_intensity text base =
      min 1 (base * exclamationFactor text * upperFactor text * profanityFactor text *
        repetitionFactor text) ∧
    (1 < (pySplit (pyLower text)).length ∧
        ((pySplit (pyLower text)).dedup.length : ℚ) <
          ((pySplit (pyLower text)).length : ℚ) * (7/10) →
      repetitionFactor text = 115/100) ∧
    (¬ (1 < (pySplit (pyLower text)).length ∧
        ((pySplit (pyLower text)).dedup.length : ℚ) <
          ((pySplit (pyLower text)).length : ℚ) * (7/10)) →
      repetitionFactor text = 1) := by
  refine ⟨calc_intensity_factored text base, fun hc => ?_, fun hc => ?_⟩
  · rw [repetitionFactor, if_pos hc]
  · rw [repetitionFactor, if_neg hc]

/-- C7 witness: "go go go stop" has 4 tokens, 2 distinct (50% repeated, above the
strict 30% bound), so the repetition boost fires. -/
theorem C7_intensity_composition_witness :
    calculate_contextual_intensity "go go go stop" (1/2) =
      min 1 ((1/2) * exclamationFactor "go go go stop" * upperFactor "go go go stop" *
        profanityFactor "go go go stop" * repetitionFactor "go go go stop") ∧
    repetitionFactor "go go go stop" = 115/100 := by
  have h := C7_intensity_composition "go go go stop" (1/2)
  refine ⟨h.1, h.2.1 ⟨by decide, ?_⟩⟩
  rw [show (pySplit (pyLower "go go go stop")).dedup.length = 2 from by decide,
    show (pySplit (pyLower "go go go stop")).length = 4 from by decide]
  norm_num

end Persona
